import Mathlib

/-!
Verification development for the GeometrySmart repository (src/App.tsx).

The definitions below are a shallow embedding of the TypeScript source:
pure functions become Lean functions, React component state updates become
explicit step functions on state records, and JavaScript numbers are
idealized as rationals (ℚ).  `Number.prototype.toFixed(2)` on an exact
value rounds to the nearest multiple of 1/100, choosing the larger
candidate on ties (ECMA-262), which is `Rat.floor (x * 100 + 1/2) / 100`.
-/

/- ### String helpers (JS `String.prototype.includes`, `Array.prototype.join`) -/

/-- `hasPfx l pat` is true when `pat` is a prefix of `l` (on character lists). -/
def hasPfx : List Char → List Char → Bool
  | _, [] => true
  | [], _ :: _ => false
  | a :: as, b :: bs => a == b && hasPfx as bs

/-- `occursIn pat l` is true when `pat` occurs contiguously inside `l`. -/
def occursIn (pat : List Char) : List Char → Bool
  | [] => pat.isEmpty
  | a :: as => hasPfx (a :: as) pat || occursIn pat as

/-- JS `s.includes(pat)`: substring test. -/
def strContains (s pat : String) : Bool :=
  occursIn pat.toList s.toList

/-- JS `Array.prototype.join(sep)` on an array of strings. -/
def joinSep (sep : String) : List String → String
  | [] => ""
  | [a] => a
  | a :: b :: rest => a ++ sep ++ joinSep sep (b :: rest)

/-- The apostrophe character (U+0027), used inside message strings. -/
def apos : String := String.singleton (Char.ofNat 39)

/-- JS `s.toLowerCase()`, character by character (the modelled queries and
keywords are ASCII). -/
def strToLower (s : String) : String :=
  String.mk (s.data.map Char.toLower)

/-- JS `s.trim()`: strip leading and trailing whitespace. -/
def strTrim (s : String) : String :=
  String.mk (((s.data.dropWhile Char.isWhitespace).reverse.dropWhile Char.isWhitespace).reverse)

/- ### Core data model (src/App.tsx, `--- Types ---` section) -/

/-- The TS union type GeometryType: default, cube, pyramid, frustum. -/
inductive GeometryType
  | default
  | cube
  | pyramid
  | frustum
deriving DecidableEq, Repr

/-- The literal string of each `GeometryType` value (TS string union member). -/
def kindStr : GeometryType → String
  | .default => "default"
  | .cube => "cube"
  | .pyramid => "pyramid"
  | .frustum => "frustum"

/-- The TS type ProblemContext: a text string and a GeometryType; its optional
image field is never read by the modelled logic and is omitted. -/
structure ProblemContext where
  text : String
  type : GeometryType
deriving DecidableEq, Repr

/-- The TS type ChatMessage: a role (ai or user) and a text string; the optional
isThinking flag is never set by the code and is omitted. -/
inductive Role
  | ai
  | user
deriving DecidableEq, Repr

structure ChatMessage where
  role : Role
  text : String
deriving DecidableEq, Repr

/- ### Knowledge base (src/App.tsx, `GEOMETRY_KNOWLEDGE_BASE`) -/

structure KnowledgeEntry where
  definition : String
  formulas : List String
  properties : List String
deriving DecidableEq, Repr

/-- `GEOMETRY_KNOWLEDGE_BASE`, keyed by `GeometryType`.  The TS object lookup
`GEOMETRY_KNOWLEDGE_BASE[type] || GEOMETRY_KNOWLEDGE_BASE.default` is total here
because `GeometryType` is exactly the key set. -/
def GEOMETRY_KNOWLEDGE_BASE : GeometryType → KnowledgeEntry
  | .cube =>
    { definition := "A regular hexahedron with 6 equal square faces."
      formulas :=
        [ "Volume = s³ (where s is side length)"
        , "Surface Area = 6s²"
        , "Space Diagonal = s√3"
        , "Face Diagonal = s√2" ]
      properties := ["12 Edges", "8 Vertices", "6 Faces", "All angles are 90°"] }
  | .pyramid =>
    { definition := "A polyhedron with a polygonal base and triangular faces that meet at a point (apex)."
      formulas :=
        [ "Volume = (1/3) × Base Area × Height"
        , "Slant Height² = Height² + (Base/2)² (for square pyramid)"
        , "Total Surface Area = Base Area + Lateral Area" ]
      properties :=
        [ "The height is the perpendicular distance from apex to base"
        , "Slant height is the height of the triangular face" ] }
  | .frustum =>
    { definition := "The portion of a cone or pyramid that remains after its upper part has been cut off by a plane parallel to its base."
      formulas :=
        [ "Volume (Cone Frustum) = (1/3)πh(R² + r² + Rr)"
        , "Lateral Area = π(R + r)s (where s is slant height)"
        , "Slant Height s = √((R-r)² + h²)" ]
      properties :=
        [ "Two parallel bases (top and bottom)"
        , "Height is perpendicular distance between bases" ] }
  | .default =>
    { definition := "A complex or general geometric shape."
      formulas := ["Volume usually depends on decomposing the shape."]
      properties := ["Check for symmetry", "Identify basic components (spheres, cylinders, etc.)"] }

/- ### Context retriever (src/App.tsx, `retrieveContext`, lines 90-113) -/

/-- Keyword test of step 3: `q.includes("volume") || q.includes("space") || q.includes("capacity")`. -/
def volHit (q : String) : Bool :=
  strContains q "volume" || strContains q "space" || strContains q "capacity"

/-- Keyword test of step 4: `q.includes("area") || q.includes("surface")`. -/
def areaHit (q : String) : Bool :=
  strContains q "area" || strContains q "surface"

/-- Keyword test of step 5: `q.includes("diagonal") || q.includes("height") || q.includes("slant")`. -/
def otherHit (q : String) : Bool :=
  strContains q "diagonal" || strContains q "height" || strContains q "slant"

/-- The line pushed by the volume branch. -/
def volLine (k : KnowledgeEntry) : String :=
  "Relevant Formulas: " ++ joinSep "; " (k.formulas.filter (fun f => strContains f "Volume"))

/-- The line pushed by the area branch. -/
def areaLine (k : KnowledgeEntry) : String :=
  "Relevant Formulas: " ++ joinSep "; " (k.formulas.filter (fun f => strContains f "Area"))

/-- The line pushed by the diagonal/height/slant branch. -/
def otherLine (k : KnowledgeEntry) : String :=
  "Properties/Other Formulas: " ++ joinSep "; " k.formulas

/-- The generic-fallback line. -/
def propsLine (k : KnowledgeEntry) : String :=
  "Key Properties: " ++ joinSep "; " k.properties

/-- The lines conditionally pushed onto `retrievedInfo` after the definition line,
in source order (volume branch, then area branch, then diagonal/height/slant branch). -/
def extraLines (query : String) (t : GeometryType) : List String :=
  (if volHit (strToLower query) then [volLine (GEOMETRY_KNOWLEDGE_BASE t)] else [])
    ++ (if areaHit (strToLower query) then [areaLine (GEOMETRY_KNOWLEDGE_BASE t)] else [])
    ++ (if otherHit (strToLower query) then [otherLine (GEOMETRY_KNOWLEDGE_BASE t)] else [])

/-- The full `retrievedInfo` array at the end of `retrieveContext`: the definition
line, the keyword-branch lines, and — exactly when the array still has length 1 —
the properties fallback. -/
def retrievedLines (query : String) (t : GeometryType) : List String :=
  if (("Definition: " ++ (GEOMETRY_KNOWLEDGE_BASE t).definition) :: extraLines query t).length = 1 then
    (("Definition: " ++ (GEOMETRY_KNOWLEDGE_BASE t).definition) :: extraLines query t)
      ++ [propsLine (GEOMETRY_KNOWLEDGE_BASE t)]
  else
    ("Definition: " ++ (GEOMETRY_KNOWLEDGE_BASE t).definition) :: extraLines query t

/-- `retrieveContext(query, type)`: `retrievedInfo.join("\n")`. -/
def retrieveContext (query : String) (t : GeometryType) : String :=
  joinSep "\n" (retrievedLines query t)

/- ### Stroke smoother (src/App.tsx, `getSmoothedPath`, lines 883-899) -/

/-- A 2D canvas point (JS `number[]` pair), idealized as rationals. -/
abbrev Pt := ℚ × ℚ

/-- JS `x.toFixed(2)` on an exact value: round to the nearest multiple of
1/100, ties to the larger candidate (ECMA-262 Number.prototype.toFixed). -/
def round2 (q : ℚ) : ℚ :=
  (Rat.floor (100 * q + 1/2) : ℚ) / 100

/-- Round both coordinates of a point to 2 decimal places. -/
def roundPt (p : Pt) : Pt :=
  (round2 p.1, round2 p.2)

/-- Midpoint of two points, as computed in the loop body of `getSmoothedPath`. -/
def midPt (a b : Pt) : Pt :=
  ((a.1 + b.1) / 2, (a.2 + b.2) / 2)

/-- One command of the produced SVG path string: `M x y`, `L x y`, or `Q cx cy x y`. -/
inductive PathCmd
  | move (p : Pt)
  | line (p : Pt)
  | quad (c : Pt) (p : Pt)
deriving DecidableEq, Repr

/-- `getSmoothedPath(points)`.  The source returns the SVG string; this embedding
returns the command sequence the string spells out.  Branches as in the source:
`points.length === 0` gives the empty string (empty command list);
`points.length < 3` gives `M p₀ L p₁ ...` on the raw, unrounded coordinates;
otherwise `M` at the rounded first point, then for `i = 1 .. length-2` a
`Q` with control `points[i]` and endpoint the midpoint of `points[i]` and
`points[i+1]` (both rounded), then `L` at the rounded last point. -/
def getSmoothedPath : List Pt → List PathCmd
  | [] => []
  | p :: rest =>
    if rest.length < 2 then
      PathCmd.move p :: rest.map PathCmd.line
    else
      PathCmd.move (roundPt p) ::
        ((List.range (rest.length - 1)).map (fun j =>
            let cp := rest.getD j (0, 0)
            let nx := rest.getD (j + 1) (0, 0)
            PathCmd.quad (roundPt cp) (roundPt (midPt cp nx)))
          ++ [PathCmd.line (roundPt (rest.getLastD p))])

/-- Modelled from the spec (section 4.1): the chain of quadratic segments of the
smoothed path, one per interior point, with control point `point[i]` and end
point `midpoint(point[i], point[i+1])` — stated as a recursion over adjacent
pairs, to be compared with the index loop of `getSmoothedPath`. -/
def quadChain : List Pt → List PathCmd
  | a :: b :: rest => PathCmd.quad (roundPt a) (roundPt (midPt a b)) :: quadChain (b :: rest)
  | _ => []

/-- All numeric coordinates appearing in one path command, in writing order. -/
def coordsOfCmd : PathCmd → List ℚ
  | .move p => [p.1, p.2]
  | .line p => [p.1, p.2]
  | .quad c p => [c.1, c.2, p.1, p.2]

/-- All numeric coordinates written into a serialized path, in writing order. -/
def coordsOf (l : List PathCmd) : List ℚ :=
  (l.map coordsOfCmd).flatten

/-- Every coordinate of the path is already rounded to 2 decimal places. -/
def allRounded (l : List PathCmd) : Prop :=
  ∀ c ∈ coordsOf l, round2 c = c

/- ### Sketch canvas state machine (src/App.tsx, `SketchpadView`, lines 942-1021) -/

/-- `TEMPLATES` (src/App.tsx lines 877-881), extended to a total map;
the sketchpad UI only inserts the cube, pyramid and frustum entries. -/
def TEMPLATES : GeometryType → String
  | .cube => "M 150 100 L 236 150 L 236 250 L 150 300 L 64 250 L 64 150 L 150 100 Z M 150 100 L 150 200 M 150 200 L 64 250 M 150 200 L 236 250"
  | .pyramid => "M 150 60 L 70 200 L 150 250 L 230 200 Z M 150 60 L 150 250"
  | .frustum => "M 100 100 L 200 100 L 220 250 L 80 250 Z M 100 100 Q 150 80 200 100 M 100 100 Q 150 120 200 100 M 80 250 Q 150 270 220 250"
  | .default => ""

/-- A committed entry of the `paths` array, with ghost provenance: either the
smoothed command list of a free-hand stroke (pushed by `handlePointerUp`), or a
template path string (pushed by `addTemplate`). -/
inductive CommittedCurve
  | freehand (cmds : List PathCmd)
  | fromTemplate (k : GeometryType) (d : String)
deriving DecidableEq, Repr

/-- The `SketchpadView` state: `paths`, `currentPoints`, `isSolving`,
`showRecognition`, `selectedTemplate`. -/
structure SketchState where
  paths : List CommittedCurve
  currentPoints : List Pt
  isSolving : Bool
  showRecognition : Bool
  selectedTemplate : GeometryType
deriving DecidableEq, Repr

/-- The initial `useState` values of `SketchpadView`. -/
def initSketch : SketchState :=
  { paths := []
    currentPoints := []
    isSolving := false
    showRecognition := false
    selectedTemplate := .default }

/-- Events the sketchpad handles.  `pointerMove p` stands for a pointer-move
with the primary button held (`e.buttons === 1`); the other events are the
corresponding handlers and toolbar/modal buttons. -/
inductive CanvasEvent
  | pointerDown (p : Pt)
  | pointerMove (p : Pt)
  | pointerUp
  | insertTemplate (k : GeometryType)
  | clear
  | undo
  | magic
  | recogConfirm (k : GeometryType)
  | recogCancel
deriving DecidableEq, Repr

/-- Body of the `setCurrentPoints` updater in `handlePointerMove`: append the
point unless it is within distance 4 of the last recorded point.
`Math.hypot(dx, dy) < 4` is stated as `dx² + dy² < 16`, which is equivalent
over the rationals. -/
def appendIfFar (prev : List Pt) (p : Pt) : List Pt :=
  match prev.getLast? with
  | some last =>
    if (last.1 - p.1) ^ 2 + (last.2 - p.2) ^ 2 < 16 then prev else prev ++ [p]
  | none => prev ++ [p]

/-- The text of the `ProblemContext` emitted by `handleRecognitionConfirm`. -/
def recognitionText (k : GeometryType) : String :=
  if k = .default then
    "User sketched a complex geometric shape. Ask them to describe its faces and vertices."
  else
    "User sketched a " ++ kindStr k ++ "."

/-- One step of the sketchpad: the next state, and the `ProblemContext` passed
to `onComplete`, when any.  Each arm transcribes the corresponding handler. -/
def stepCanvas (s : SketchState) : CanvasEvent → SketchState × Option ProblemContext
  | .pointerDown p =>
    if s.isSolving then (s, none)
    else ({ s with currentPoints := [p] }, none)
  | .pointerMove p =>
    if s.isSolving then (s, none)
    else ({ s with currentPoints := appendIfFar s.currentPoints p }, none)
  | .pointerUp =>
    if s.currentPoints.length > 1 then
      ({ s with paths := s.paths ++ [.freehand (getSmoothedPath s.currentPoints)]
                currentPoints := [] }, none)
    else ({ s with currentPoints := [] }, none)
  | .insertTemplate k =>
    ({ s with paths := s.paths ++ [.fromTemplate k (TEMPLATES k)]
              selectedTemplate := k }, none)
  | .clear =>
    ({ s with paths := [], selectedTemplate := .default }, none)
  | .undo =>
    ({ s with paths := s.paths.dropLast }, none)
  | .magic =>
    if s.paths.length = 0 then (s, none)
    else if s.selectedTemplate = .default then
      ({ s with showRecognition := true }, none)
    else
      ({ s with isSolving := true },
        some { text := "User sketched a " ++ kindStr s.selectedTemplate ++ " and wants to analyze it."
               type := s.selectedTemplate })
  | .recogConfirm k =>
    if s.showRecognition then
      ({ s with showRecognition := false, isSolving := true },
        some { text := recognitionText k, type := k })
    else (s, none)
  | .recogCancel =>
    ({ s with showRecognition := false }, none)

/-- Run a sequence of canvas events from a state, discarding emitted contexts. -/
def runCanvas (s : SketchState) : List CanvasEvent → SketchState
  | [] => s
  | e :: es => runCanvas (stepCanvas s e).1 es

/-- The committed list contains at least one free-hand curve. -/
def hasFreehand (l : List CommittedCurve) : Bool :=
  l.any fun c => match c with | .freehand _ => true | .fromTemplate _ _ => false

/-- The committed list contains at least one template curve. -/
def hasTemplate (l : List CommittedCurve) : Bool :=
  l.any fun c => match c with | .freehand _ => false | .fromTemplate _ _ => true

/- ### Tutoring session (src/App.tsx, `WorkspaceView`, lines 1157-1367) -/

/-- The `WorkspaceView` state: `messages`, `inputText`, `isTyping` (streaming),
`isRetrieving`, plus whether `chatSessionRef.current` has been set by `initChat`. -/
structure SessionState where
  messages : List ChatMessage
  inputText : String
  isRetrieving : Bool
  isTyping : Bool
  chatReady : Bool
deriving DecidableEq, Repr

/-- The fixed error text appended by the catch branch of `handleSendMessage`. -/
def connectionErrorMsg : String := "Connection error. Please try again."

/-- The condition under which the send button is disabled:
`!inputText.trim() || isTyping || isRetrieving` (line 1348). -/
def sendDisabled (s : SessionState) : Bool :=
  strTrim s.inputText == "" || s.isTyping || s.isRetrieving

/-- `handleSendMessage` up to its first await: guard on empty input and a
missing chat handle, then append the user message, clear the input and enter
the retrieving phase.  (`retrieveContext` is called here in the source; its
result only feeds the later prompt and is not part of the visible state.) -/
def handleSendMessage (s : SessionState) : SessionState :=
  if strTrim s.inputText == "" || !s.chatReady then s
  else
    { s with messages := s.messages ++ [{ role := .user, text := s.inputText }]
             inputText := ""
             isRetrieving := true }

/-- The send button: it invokes `handleSendMessage`, guarded by its disabled attribute. -/
def buttonSend (s : SessionState) : SessionState :=
  if sendDisabled s then s else handleSendMessage s

/-- `handleKeyPress`: on Enter, call `handleSendMessage` directly (line 1266);
there is no disabled-state check on this path. -/
def keyEnter (s : SessionState) : SessionState :=
  handleSendMessage s

/-- Typing into the input field (`onChange`). -/
def setInput (s : SessionState) (t : String) : SessionState :=
  { s with inputText := t }

/-- The 600 ms retrieval timer firing: `setIsRetrieving(false); setIsTyping(true)`. -/
def retrievalTimer (s : SessionState) : SessionState :=
  { s with isRetrieving := false, isTyping := true }

/-- `sendMessageStream` resolving: the empty AI message is appended. -/
def streamOpened (s : SessionState) : SessionState :=
  { s with messages := s.messages ++ [{ role := .ai, text := "" }] }

/-- A stream chunk arriving: the last transcript entry is replaced by an AI
message holding the accumulated text, which extends the previous last text by
the chunk. -/
def applyChunk (s : SessionState) (t : String) : SessionState :=
  match s.messages.getLast? with
  | none => s
  | some m => { s with messages := s.messages.dropLast ++ [{ role := .ai, text := m.text ++ t }] }

/-- The stream completing normally: the finally branch clears `isTyping`. -/
def streamDone (s : SessionState) : SessionState :=
  { s with isTyping := false }

/-- Any transport failure during streaming: the catch branch appends the fixed
error message, and the finally branch clears `isTyping`. -/
def streamError (s : SessionState) : SessionState :=
  { s with messages := s.messages ++ [{ role := .ai, text := connectionErrorMsg }]
           isTyping := false }

/- ### Session initialization (src/App.tsx, `initChat`, lines 1166-1212) -/

/-- The marker the drop/click handlers put into `problemText` for an image upload. -/
def imageSignal : String := "User uploaded an image"

/-- The single opening AI message synthesized by `initChat` (lines 1197-1208).
JS truthiness tests `context.text && ...` are modelled as a nonemptiness
conjunct. -/
def initialMsg (ctx : ProblemContext) : String :=
  let base := "I" ++ apos ++ "ve analyzed the "
    ++ (if ctx.type = .default then "geometry" else kindStr ctx.type) ++ "."
  if !(ctx.text == "") && strContains ctx.text imageSignal then
    base ++ " Since I can" ++ apos
      ++ "t read the specific numbers from the image perfectly yet, could you tell me what values are given?"
  else if ctx.type = .default then
    base ++ " It looks complex. Can you describe the faces or vertices to help me understand it better?"
  else if !(ctx.text == "") && ctx.text.length > 10 then
    base ++ " It looks like an interesting problem. What is the first variable we need to identify?"
  else
    base ++ " I" ++ apos ++ "m ready to help you solve it. Where should we start?"

/-- The transcript right after initialization: a single AI message holding
`initialMsg`. -/
def initMessages (ctx : ProblemContext) : List ChatMessage :=
  [{ role := .ai, text := initialMsg ctx }]

/- ### Scan view (src/App.tsx, `ScanView`, lines 754-874) -/

/-- `handleAnalyze` of `ScanView`: guard on blank text, then emit a context of
type `default` carrying the typed text verbatim. -/
def scanAnalyze (problemText : String) : Option ProblemContext :=
  if strTrim problemText == "" then none
  else some { text := problemText, type := .default }

/-- The pre-authored example contexts of `ScanView` (lines 758-763). -/
def scanExamples : List ProblemContext :=
  [ { type := .pyramid
      text := "Calculate the total surface area of a square-based pyramid with base length 10cm and slant height 14cm." }
  , { type := .cube
      text := "A cube has a volume of 512 cm³. Find the length of its main space diagonal." }
  , { type := .frustum
      text := "A bucket is in the shape of a frustum with top radius 15cm, bottom radius 10cm, and height 20cm. Find its capacity." }
  , { type := .default
      text := "A sphere is inscribed perfectly inside a cylinder with height 10 units. What is the ratio of their volumes?" } ]

/- ### Concrete demonstration inputs used by the theorems below -/

/-- An event sequence: insert the cube template, undo it, then draw and commit
a two-point free-hand stroke. -/
def undoDemoEvents : List CanvasEvent :=
  [.insertTemplate .cube, .undo, .pointerDown (0, 0), .pointerMove (10, 0), .pointerUp]

/-- An event sequence: draw and commit a two-point free-hand stroke only. -/
def freehandDemoEvents : List CanvasEvent :=
  [.pointerDown (0, 0), .pointerMove (10, 0), .pointerUp]

/-- A session mid-stream: one AI message so far, a reply streaming
(`isTyping = true`), and non-blank text sitting in the input field. -/
def streamingState : SessionState :=
  { messages := [{ role := .ai, text := "Welcome" }]
    inputText := "What is the volume?"
    isRetrieving := false
    isTyping := true
    chatReady := true }

/-- A sketchpad holding one committed free-hand curve and no template. -/
def freehandSketch : SketchState :=
  { paths := [.freehand [.move (0, 0), .line (10, 0)]]
    currentPoints := []
    isSolving := false
    showRecognition := false
    selectedTemplate := .default }

/- ### Shared lemmas -/

/-- The computable `Rat.floor` from Batteries agrees with the `Int.floor` of Mathlib. -/
theorem rat_floor_eq_floor (q : ℚ) : Rat.floor q = ⌊q⌋ := by
  rw [Rat.floor_def', ← Rat.floor_def]

/-- Rounding to 2 decimal places is idempotent. -/
theorem round2_idem (q : ℚ) : round2 (round2 q) = round2 q := by
  unfold round2
  rw [rat_floor_eq_floor, rat_floor_eq_floor]
  have h100 : (100 : ℚ) ≠ 0 := by norm_num
  rw [mul_div_cancel₀ _ h100]
  norm_num [Int.floor_int_add]

/-- `join` of a nonempty list starts with its head. -/
theorem joinSep_cons (sep a : String) (l : List String) :
    ∃ r, joinSep sep (a :: l) = a ++ r := by
  cases l with
  | nil => exact ⟨"", by simp [joinSep]⟩
  | cons b rest => exact ⟨sep ++ joinSep sep (b :: rest), by simp [joinSep, String.append_assoc]⟩

/-- The branch lines of `extraLines` are among the three fixed lines. -/
theorem mem_extraLines (q : String) (t : GeometryType) :
    ∀ l ∈ extraLines q t,
      l = volLine (GEOMETRY_KNOWLEDGE_BASE t)
      ∨ l = areaLine (GEOMETRY_KNOWLEDGE_BASE t)
      ∨ l = otherLine (GEOMETRY_KNOWLEDGE_BASE t) := by
  intro l hl
  unfold extraLines at hl
  split_ifs at hl <;> simp_all <;> tauto

/-- `extraLines` is empty exactly when no keyword branch fired. -/
theorem extraLines_eq_nil_iff (q : String) (t : GeometryType) :
    extraLines q t = []
      ↔ volHit (strToLower q) = false ∧ areaHit (strToLower q) = false
          ∧ otherHit (strToLower q) = false := by
  unfold extraLines
  split_ifs <;> simp_all

/-- The fallback line differs from the definition line and every branch line. -/
theorem propsLine_ne_lines (t : GeometryType) :
    propsLine (GEOMETRY_KNOWLEDGE_BASE t) ≠ "Definition: " ++ (GEOMETRY_KNOWLEDGE_BASE t).definition
    ∧ propsLine (GEOMETRY_KNOWLEDGE_BASE t) ≠ volLine (GEOMETRY_KNOWLEDGE_BASE t)
    ∧ propsLine (GEOMETRY_KNOWLEDGE_BASE t) ≠ areaLine (GEOMETRY_KNOWLEDGE_BASE t)
    ∧ propsLine (GEOMETRY_KNOWLEDGE_BASE t) ≠ otherLine (GEOMETRY_KNOWLEDGE_BASE t) := by
  cases t <;> refine ⟨by decide, by decide, by decide, by decide⟩

/-- `retrievedLines` always starts with the definition line. -/
theorem retrievedLines_head (q : String) (t : GeometryType) :
    ∃ rest, retrievedLines q t
      = ("Definition: " ++ (GEOMETRY_KNOWLEDGE_BASE t).definition) :: rest := by
  unfold retrievedLines
  split_ifs <;> exact ⟨_, rfl⟩

/-- C2 (amended): the retriever output always includes the definition line and is
never empty, and the property-list fallback is appended exactly when the query
matches none of the keyword sets of steps 3-5.  A keyword match always counts as
having added a line, even when its formula filter selects no formulas (the line
then has empty formula content), so such queries do not get the fallback. -/
theorem retrieveContext_definition_and_fallback (q : String) (t : GeometryType) :
    retrieveContext q t ≠ ""
    ∧ (∃ r, retrieveContext q t = ("Definition: " ++ (GEOMETRY_KNOWLEDGE_BASE t).definition) ++ r)
    ∧ (propsLine (GEOMETRY_KNOWLEDGE_BASE t) ∈ retrievedLines q t
        ↔ volHit (strToLower q) = false ∧ areaHit (strToLower q) = false
            ∧ otherHit (strToLower q) = false) := by
  obtain ⟨rest, hrest⟩ := retrievedLines_head q t
  obtain ⟨r, hr⟩ := joinSep_cons "\n" _ rest
  have hout : retrieveContext q t
      = ("Definition: " ++ (GEOMETRY_KNOWLEDGE_BASE t).definition) ++ r := by
    rw [retrieveContext, hrest, hr]
  refine ⟨?_, ⟨r, hout⟩, ?_⟩
  · intro h0
    rw [hout] at h0
    have hlen := congrArg String.length h0
    have h12 : ("Definition: " : String).length = 12 := rfl
    have h0' : ("" : String).length = 0 := rfl
    simp only [String.length_append, h12, h0'] at hlen
    omega
  · constructor
    · intro hmem
      by_contra hq
      have hne : extraLines q t ≠ [] := by
        intro hnil
        exact hq ((extraLines_eq_nil_iff q t).mp hnil)
      have hlen : (("Definition: " ++ (GEOMETRY_KNOWLEDGE_BASE t).definition) :: extraLines q t).length ≠ 1 := by
        intro h1
        rw [List.length_cons] at h1
        have h0 : (extraLines q t).length = 0 := by omega
        exact hne (List.eq_nil_of_length_eq_zero h0)
      rw [retrievedLines] at hmem
      simp only [if_neg hlen] at hmem
      rcases List.mem_cons.mp hmem with h | h
      · exact (propsLine_ne_lines t).1 h
      · rcases mem_extraLines q t _ h with h' | h' | h'
        · exact (propsLine_ne_lines t).2.1 h'
        · exact (propsLine_ne_lines t).2.2.1 h'
        · exact (propsLine_ne_lines t).2.2.2 h'
    · intro hq
      have hnil : extraLines q t = [] := (extraLines_eq_nil_iff q t).mpr hq
      rw [retrievedLines]
      simp [hnil]

/-- C2 counterexample: the query "area" matches the area keyword, but the
default entry has no formula containing "Area", so the pushed formula line is
empty of content — yet the properties fallback is NOT appended, contradicting
the parenthetical of the claim. -/
theorem retrieveContext_area_default_no_fallback :
    (GEOMETRY_KNOWLEDGE_BASE GeometryType.default).formulas.filter (fun f => strContains f "Area") = []
    ∧ retrieveContext "area" GeometryType.default
        = "Definition: A complex or general geometric shape.\nRelevant Formulas: "
    ∧ propsLine (GEOMETRY_KNOWLEDGE_BASE GeometryType.default)
        ∉ retrievedLines "area" GeometryType.default := by
  refine ⟨by decide, by decide, by decide⟩

/-- C7: the context retriever is a pure function — identical `(query, kind)`
arguments give identical output; there is no randomness and no external call in
its definition. -/
theorem retrieveContext_deterministic (q₁ q₂ : String) (t₁ t₂ : GeometryType)
    (hq : q₁ = q₂) (ht : t₁ = t₂) :
    retrieveContext q₁ t₁ = retrieveContext q₂ t₂ := by
  subst hq; subst ht; rfl

/-- C7 witness: two calls at a concrete `(query, kind)` pair coincide. -/
theorem retrieveContext_deterministic_witness :
    retrieveContext "What is the volume?" GeometryType.cube
      = retrieveContext "What is the volume?" GeometryType.cube :=
  retrieveContext_deterministic _ _ _ _ rfl rfl

/-- The index loop of `getSmoothedPath` builds exactly the adjacent-pair chain
of quadratic segments described by the spec. -/
theorem range_map_eq_quadChain (l : List Pt) :
    (List.range (l.length - 1)).map (fun j =>
        PathCmd.quad (roundPt (l.getD j (0, 0)))
          (roundPt (midPt (l.getD j (0, 0)) (l.getD (j + 1) (0, 0)))))
      = quadChain l := by
  induction l with
  | nil => rfl
  | cons a t ih =>
    cases t with
    | nil => rfl
    | cons b r =>
      have hlen : (a :: b :: r).length - 1 = r.length + 1 := by simp
      rw [hlen, List.range_succ_eq_map, List.map_cons, List.map_map]
      have hhead :
          PathCmd.quad (roundPt ((a :: b :: r).getD 0 (0, 0)))
            (roundPt (midPt ((a :: b :: r).getD 0 (0, 0)) ((a :: b :: r).getD 1 (0, 0))))
          = PathCmd.quad (roundPt a) (roundPt (midPt a b)) := by
        simp [List.getD_cons_zero, List.getD_cons_succ]
      have hlen' : (b :: r).length - 1 = r.length := by simp
      have htail :
          (List.range r.length).map ((fun j =>
              PathCmd.quad (roundPt ((a :: b :: r).getD j (0, 0)))
                (roundPt (midPt ((a :: b :: r).getD j (0, 0)) ((a :: b :: r).getD (j + 1) (0, 0)))))
            ∘ Nat.succ)
          = quadChain (b :: r) := by
        rw [← ih, hlen']
        refine List.map_congr_left ?_
        intro j _
        simp [Function.comp, List.getD_cons_succ]
      rw [show quadChain (a :: b :: r)
          = PathCmd.quad (roundPt a) (roundPt (midPt a b)) :: quadChain (b :: r) from rfl]
      rw [hhead, htail]

/-- Structure of the smoothed path on inputs of three or more points. -/
theorem getSmoothedPath_cons (p : Pt) (t : List Pt) (h : 2 ≤ t.length) :
    getSmoothedPath (p :: t)
      = PathCmd.move (roundPt p) :: (quadChain t ++ [PathCmd.line (roundPt (t.getLastD p))]) := by
  rw [getSmoothedPath]
  rw [if_neg (by omega)]
  rw [range_map_eq_quadChain]

/-- Every coordinate of the quadratic chain is an image of `round2`. -/
theorem quadChain_coords_round2 (l : List Pt) :
    ∀ c ∈ coordsOf (quadChain l), ∃ x, c = round2 x := by
  induction l with
  | nil => intro c hc; simp [quadChain, coordsOf] at hc
  | cons a t ih =>
    cases t with
    | nil => intro c hc; simp [quadChain, coordsOf] at hc
    | cons b r =>
      intro c hc
      rw [show quadChain (a :: b :: r)
          = PathCmd.quad (roundPt a) (roundPt (midPt a b)) :: quadChain (b :: r) from rfl] at hc
      simp only [coordsOf, List.map_cons, List.flatten_cons, List.mem_append] at hc
      rcases hc with hc | hc
      · simp only [coordsOfCmd, roundPt, List.mem_cons, List.mem_singleton] at hc
        rcases hc with h | h | h | h | h
        · exact ⟨a.1, h⟩
        · exact ⟨a.2, h⟩
        · exact ⟨(midPt a b).1, h⟩
        · exact ⟨(midPt a b).2, h⟩
        · simp at h
      · exact ih c hc

/-- C4: the stroke smoother yields the empty curve on no input; a straight chain
through exactly the raw points on one or two; and on three or more a move to the
first point, the chain of quadratic segments from the spec (control `point[i]`, end
`midpoint(point[i], point[i+1])`) and a final straight segment to the last raw
point — so the serialized curve starts at the first and ends at the last raw
input point (coordinates written through the 2-decimal serialization rounding;
the 1-2 point chain carries the raw points verbatim). -/
theorem getSmoothedPath_spec (ps : List Pt) :
    (ps = [] → getSmoothedPath ps = [])
    ∧ (∀ p, ps = [p] → getSmoothedPath ps = [PathCmd.move p])
    ∧ (∀ p q, ps = [p, q] → getSmoothedPath ps = [PathCmd.move p, PathCmd.line q])
    ∧ (∀ p t, ps = p :: t → 2 ≤ t.length →
        getSmoothedPath ps
          = PathCmd.move (roundPt p) :: (quadChain t ++ [PathCmd.line (roundPt (t.getLastD p))])
        ∧ (getSmoothedPath ps).head? = some (PathCmd.move (roundPt p))
        ∧ (getSmoothedPath ps).getLast? = some (PathCmd.line (roundPt (t.getLastD p)))) := by
  refine ⟨?_, ?_, ?_, ?_⟩
  · rintro rfl; rfl
  · rintro p rfl; rfl
  · rintro p q rfl; rfl
  · rintro p t rfl ht
    have hs := getSmoothedPath_cons p t ht
    refine ⟨hs, by rw [hs]; rfl, ?_⟩
    rw [hs, ← List.cons_append, List.getLast?_concat]

/-- C4 witness: the smoothed path of a concrete three-point stroke. -/
theorem getSmoothedPath_spec_witness :
    getSmoothedPath [((0 : ℚ), (0 : ℚ)), (10, 0), (20, 10)]
      = PathCmd.move (roundPt (0, 0))
        :: (quadChain [(10, 0), (20, 10)]
            ++ [PathCmd.line (roundPt (([((10 : ℚ), (0 : ℚ)), (20, 10)] : List Pt).getLastD (0, 0)))]) :=
  ((getSmoothedPath_spec _).2.2.2 (0, 0) [(10, 0), (20, 10)] rfl (by decide)).1

/-- C5 counterexample: for a single-point input the coordinate 1/8 (x = 0.125) is
written verbatim, and 0.125 is not equal to its own 2-decimal rounding — so not
every serialized coordinate of every input is rounded to 2 decimal places. -/
theorem getSmoothedPath_short_unrounded :
    getSmoothedPath [((1 : ℚ) / 8, 0)] = [PathCmd.move ((1 : ℚ) / 8, 0)]
    ∧ (1 : ℚ) / 8 ∈ coordsOf (getSmoothedPath [((1 : ℚ) / 8, 0)])
    ∧ round2 ((1 : ℚ) / 8) ≠ (1 : ℚ) / 8 := by
  refine ⟨rfl, by simp [coordsOf, coordsOfCmd, getSmoothedPath], ?_⟩
  rw [round2, rat_floor_eq_floor]
  norm_num

/-- C5 (amended): every coordinate the smoother writes is rounded to 2 decimal
places for inputs of three or more points (the branch that applies `toFixed(2)`);
for inputs of one or two points the raw coordinates are serialized verbatim,
without rounding. -/
theorem getSmoothedPath_rounding (ps : List Pt) :
    (3 ≤ ps.length → allRounded (getSmoothedPath ps))
    ∧ (ps.length < 3 → coordsOf (getSmoothedPath ps) = (ps.map (fun p => [p.1, p.2])).flatten) := by
  constructor
  · intro hlen
    match ps, hlen with
    | p :: a :: b :: r, _ =>
      have h2 : 2 ≤ (a :: b :: r).length := by simp
      intro c hc
      rw [getSmoothedPath_cons p (a :: b :: r) h2] at hc
      simp only [coordsOf, List.map_cons, List.map_append, List.flatten_cons,
        List.flatten_append, List.mem_append, List.mem_cons] at hc
      have himg : ∃ x, c = round2 x := by
        rcases hc with hc | hc
        · simp only [coordsOfCmd, roundPt, List.mem_cons, List.not_mem_nil, or_false] at hc
          rcases hc with h | h
          · exact ⟨p.1, h⟩
          · exact ⟨p.2, h⟩
        · rcases hc with hc | hc
          · exact quadChain_coords_round2 _ c (by simpa [coordsOf] using hc)
          · simp only [coordsOfCmd, roundPt, List.map_cons, List.map_nil, List.flatten_cons,
              List.flatten_nil, List.append_nil, List.mem_cons, List.not_mem_nil, or_false] at hc
            rcases hc with h | h
            · exact ⟨((a :: b :: r).getLastD p).1, h⟩
            · exact ⟨((a :: b :: r).getLastD p).2, h⟩
      obtain ⟨x, rfl⟩ := himg
      exact round2_idem x
  · intro hlen
    match ps, hlen with
    | [], _ => rfl
    | [p], _ => simp [getSmoothedPath, coordsOf, coordsOfCmd]
    | [p, q], _ => simp [getSmoothedPath, coordsOf, coordsOfCmd]

/-- C5 witness: the rounding facts evaluated at concrete inputs — a three-point
stroke has all coordinates rounded, and a one-point stroke is kept verbatim. -/
theorem getSmoothedPath_rounding_witness :
    allRounded (getSmoothedPath [((1 : ℚ), (2 : ℚ)), (3, 4), (5, 6)])
    ∧ coordsOf (getSmoothedPath [((1 : ℚ) / 8, (0 : ℚ))])
        = ([((1 : ℚ) / 8, (0 : ℚ))].map (fun p => [p.1, p.2])).flatten :=
  ⟨(getSmoothedPath_rounding [((1 : ℚ), (2 : ℚ)), (3, 4), (5, 6)]).1 (by decide),
    (getSmoothedPath_rounding [((1 : ℚ) / 8, (0 : ℚ))]).2 (by decide)⟩

/-- `hasTemplate` distributes over append. -/
theorem hasTemplate_append (l l' : List CommittedCurve) :
    hasTemplate (l ++ l') = (hasTemplate l || hasTemplate l') :=
  List.any_append

/-- Any canvas event other than `undo` preserves the tagging invariant
"a non-default `selectedTemplate` is witnessed by a committed template curve". -/
theorem stepCanvas_preserves_tag (s : SketchState) (e : CanvasEvent)
    (he : e ≠ CanvasEvent.undo)
    (h : s.selectedTemplate ≠ GeometryType.default → hasTemplate s.paths = true) :
    (stepCanvas s e).1.selectedTemplate ≠ GeometryType.default →
      hasTemplate (stepCanvas s e).1.paths = true := by
  cases e <;> simp only [stepCanvas] <;> try split_ifs
  all_goals
    first
      | exact absurd rfl he
      | exact h
      | (intro hne; simp only [hasTemplate_append, h hne, Bool.true_or])
      | (intro hne; exact absurd rfl hne)
      | (intro hne; simp [hasTemplate_append, hasTemplate])

/-- Running any `undo`-free event sequence preserves the tagging invariant. -/
theorem runCanvas_preserves_tag :
    ∀ (es : List CanvasEvent) (s : SketchState), CanvasEvent.undo ∉ es →
      (s.selectedTemplate ≠ GeometryType.default → hasTemplate s.paths = true) →
      ((runCanvas s es).selectedTemplate ≠ GeometryType.default →
        hasTemplate (runCanvas s es).paths = true) := by
  intro es
  induction es with
  | nil => intro s _ h; exact h
  | cons e rest ih =>
    intro s hmem h
    have he : e ≠ CanvasEvent.undo := fun hq => hmem (hq ▸ List.mem_cons_self e rest)
    have hrest : CanvasEvent.undo ∉ rest := fun hq => hmem (List.mem_cons_of_mem e hq)
    exact ih _ hrest (stepCanvas_preserves_tag s e he h)

/-- C1 (amended): for every event sequence without `undo`, starting from the
empty canvas, whenever at least one committed curve is free-hand and none came
from a template, `selectedTemplate` is `default`; and `insertTemplate`
unconditionally sets `selectedTemplate` to the kind of the template.  (With `undo`
the first part fails — see the counterexample — because `undoLast` removes the
template curve but leaves the kind tag.) -/
theorem canvas_kind_invariant_no_undo (es : List CanvasEvent)
    (h : CanvasEvent.undo ∉ es) (k : GeometryType) (s : SketchState) :
    (hasFreehand (runCanvas initSketch es).paths = true →
      hasTemplate (runCanvas initSketch es).paths = false →
      (runCanvas initSketch es).selectedTemplate = GeometryType.default)
    ∧ (stepCanvas s (CanvasEvent.insertTemplate k)).1.selectedTemplate = k := by
  constructor
  · intro _ hnt
    by_contra hne
    have hinit : initSketch.selectedTemplate ≠ GeometryType.default →
        hasTemplate initSketch.paths = true := fun hd => (hd rfl).elim
    have := runCanvas_preserves_tag es initSketch h hinit hne
    rw [hnt] at this
    cases this
  · simp [stepCanvas]

/-- C1 counterexample: insert the cube template, undo it, then commit a two-point
free-hand stroke.  The committed list now holds exactly one free-hand curve and
no template curve, yet `selectedTemplate` is still `cube` — the invariant as
stated (over all operation sequences, `undo` included) fails on the code. -/
theorem canvas_kind_invariant_counterexample :
    hasFreehand (runCanvas initSketch undoDemoEvents).paths = true
    ∧ hasTemplate (runCanvas initSketch undoDemoEvents).paths = false
    ∧ (runCanvas initSketch undoDemoEvents).selectedTemplate = GeometryType.cube := by
  have hrun : runCanvas initSketch undoDemoEvents
      = { paths := [.freehand [.move (0, 0), .line (10, 0)]]
          currentPoints := []
          isSolving := false
          showRecognition := false
          selectedTemplate := .cube } := by
    simp [undoDemoEvents, runCanvas, stepCanvas, initSketch, appendIfFar, getSmoothedPath, TEMPLATES]
    norm_num
  rw [hrun]
  refine ⟨by decide, by decide, rfl⟩

/-- C1 witness: an undo-free drawing session ends with `selectedTemplate`
`default`, and inserting a cube template sets the kind to `cube`. -/
theorem canvas_kind_invariant_no_undo_witness :
    (runCanvas initSketch freehandDemoEvents).selectedTemplate = GeometryType.default
    ∧ (stepCanvas freehandSketch (CanvasEvent.insertTemplate GeometryType.cube)).1.selectedTemplate
        = GeometryType.cube := by
  have h := canvas_kind_invariant_no_undo freehandDemoEvents (by decide) GeometryType.cube freehandSketch
  have hrun : runCanvas initSketch freehandDemoEvents = freehandSketch := by
    simp [freehandDemoEvents, runCanvas, stepCanvas, initSketch, freehandSketch, appendIfFar,
      getSmoothedPath]
    norm_num
  exact ⟨h.1 (by rw [hrun]; decide) (by rw [hrun]; decide), h.2⟩

/-- C6: with only free-hand curves committed (`selectedTemplate = default`),
invoking analyze never emits a `ProblemContext` — it only opens the
confirmation modal; in that situation the only event that can emit a context is
an explicit confirmation click with the modal open; and cancelling the modal
leaves the canvas state unchanged and emits nothing. -/
theorem confirmation_gate (s : SketchState) (e : CanvasEvent) :
    (s.selectedTemplate = GeometryType.default →
      (stepCanvas s CanvasEvent.magic).2 = none
      ∧ (stepCanvas s CanvasEvent.magic).1.paths = s.paths
      ∧ (stepCanvas s CanvasEvent.magic).1.selectedTemplate = s.selectedTemplate)
    ∧ (s.selectedTemplate = GeometryType.default → ((stepCanvas s e).2).isSome = true →
        ∃ k, e = CanvasEvent.recogConfirm k ∧ s.showRecognition = true)
    ∧ ((stepCanvas s CanvasEvent.recogCancel).2 = none
        ∧ (stepCanvas s CanvasEvent.recogCancel).1.paths = s.paths
        ∧ (stepCanvas s CanvasEvent.recogCancel).1.currentPoints = s.currentPoints
        ∧ (stepCanvas s CanvasEvent.recogCancel).1.selectedTemplate = s.selectedTemplate
        ∧ (stepCanvas s CanvasEvent.recogCancel).1.isSolving = s.isSolving) := by
  refine ⟨?_, ?_, ⟨rfl, rfl, rfl, rfl, rfl⟩⟩
  · intro hdef
    simp only [stepCanvas]
    split_ifs <;> simp_all
  · intro hdef hsome
    cases e <;> simp only [stepCanvas] at hsome
    case pointerDown p => split_ifs at hsome <;> simp at hsome
    case pointerMove p => split_ifs at hsome <;> simp at hsome
    case pointerUp => split_ifs at hsome <;> simp at hsome
    case insertTemplate k => simp at hsome
    case clear => simp at hsome
    case undo => simp at hsome
    case magic => split_ifs at hsome <;> simp at hsome
    case recogConfirm k =>
      split_ifs at hsome with h1
      · exact ⟨k, rfl, h1⟩
      · simp at hsome
    case recogCancel => simp at hsome

/-- C6 witness: on a concrete free-hand-only canvas, analyze emits nothing and
cancel emits nothing. -/
theorem confirmation_gate_witness :
    (stepCanvas freehandSketch CanvasEvent.magic).2 = none
    ∧ (stepCanvas freehandSketch CanvasEvent.recogCancel).2 = none :=
  ⟨((confirmation_gate freehandSketch CanvasEvent.magic).1 (by decide)).1,
    ((confirmation_gate freehandSketch CanvasEvent.magic).2.2).1⟩

/-- C3: evaluated at a concrete mid-stream session state with non-blank input —
the send button is disabled and clicking it does nothing, but the Enter key path
(`handleKeyPress` calls `handleSendMessage` with no state check) appends a new
user message and starts a second concurrent turn (`isRetrieving` becomes true
while `isTyping` is still true). -/
theorem keypress_sends_during_streaming :
    sendDisabled streamingState = true
    ∧ buttonSend streamingState = streamingState
    ∧ (keyEnter streamingState).messages
        = streamingState.messages ++ [{ role := Role.user, text := "What is the volume?" }]
    ∧ (keyEnter streamingState).isRetrieving = true
    ∧ (keyEnter streamingState).isTyping = true := by
  refine ⟨by decide, by decide, by decide, by decide, by decide⟩

/-- C8: on any transport failure during streaming (the retrieval timer has
already fired, so `isRetrieving` is false), the catch/finally branches append
the fixed "Connection error. Please try again." AI message and return the
session to Ready (`isTyping` false, `isRetrieving` false), and the session
accepts a further turn: with any non-blank input the send control is enabled
and clicking it appends the new user message. -/
theorem stream_error_recovery (s : SessionState) (h : s.isRetrieving = false) :
    (streamError s).messages = s.messages ++ [{ role := Role.ai, text := connectionErrorMsg }]
    ∧ (streamError s).isTyping = false
    ∧ (streamError s).isRetrieving = false
    ∧ (∀ t, strTrim t ≠ "" → s.chatReady = true →
        sendDisabled { streamError s with inputText := t } = false
        ∧ (buttonSend { streamError s with inputText := t }).messages
            = (streamError s).messages ++ [{ role := Role.user, text := t }]) := by
  refine ⟨rfl, rfl, h, ?_⟩
  intro t ht hc
  have hbe : (strTrim t == "") = false := beq_eq_false_iff_ne.mpr ht
  constructor
  · simp [sendDisabled, streamError, hbe, h]
  · simp [buttonSend, sendDisabled, handleSendMessage, streamError, hbe, h, hc]

/-- C8 witness: a transport failure on a concrete streaming session appends the
fixed error message, clears the streaming flag, and the send control works again. -/
theorem stream_error_recovery_witness :
    (streamError streamingState).messages
      = streamingState.messages ++ [{ role := Role.ai, text := connectionErrorMsg }]
    ∧ (streamError streamingState).isTyping = false
    ∧ sendDisabled { streamError streamingState with inputText := "Try again now" } = false := by
  have h := stream_error_recovery streamingState rfl
  exact ⟨h.1, h.2.1, (h.2.2.2 "Try again now" (by decide) rfl).1⟩

/-- C10: every `ProblemContext` the scan view produces from user-typed text has
type `default`, regardless of the content of the text, and carries it verbatim;
only the four pre-authored example buttons carry specific kinds
(pyramid, cube, frustum, default). -/
theorem scan_analyze_default (t : String) (ctx : ProblemContext)
    (h : scanAnalyze t = some ctx) :
    ctx.type = GeometryType.default ∧ ctx.text = t
    ∧ scanExamples.map ProblemContext.type
        = [GeometryType.pyramid, GeometryType.cube, GeometryType.frustum, GeometryType.default] := by
  rw [scanAnalyze] at h
  split_ifs at h with h1
  injection h with h2
  subst h2
  exact ⟨rfl, rfl, rfl⟩

/-- C10 witness: typed text mentioning a cube still yields a `default` context. -/
theorem scan_analyze_default_witness :
    (ProblemContext.mk "A cube has side 3. Find its volume." GeometryType.default).type
        = GeometryType.default
    ∧ (ProblemContext.mk "A cube has side 3. Find its volume." GeometryType.default).text
        = "A cube has side 3. Find its volume."
    ∧ scanExamples.map ProblemContext.type
        = [GeometryType.pyramid, GeometryType.cube, GeometryType.frustum, GeometryType.default] :=
  scan_analyze_default "A cube has side 3. Find its volume." _ (by decide)

/-- C9: initialization appends exactly one opening AI message, chosen by the
priority order of the source: (a) image-upload marker in the text; else (b) the
`default`/complex kind asks for faces/vertices; else (c) text longer than the
small threshold (10) asks for the first variable; else (d) the generic opener.
In particular a specific confirmed kind such as `frustum` never receives the
faces/vertices phrasing. -/
theorem init_opening_message (ctx : ProblemContext) :
    (initMessages ctx).length = 1
    ∧ (ctx.text ≠ "" → strContains ctx.text imageSignal = true →
        initialMsg ctx
          = "I" ++ apos ++ "ve analyzed the "
              ++ (if ctx.type = GeometryType.default then "geometry" else kindStr ctx.type) ++ "."
            ++ " Since I can" ++ apos
            ++ "t read the specific numbers from the image perfectly yet, could you tell me what values are given?")
    ∧ (strContains ctx.text imageSignal = false → ctx.type = GeometryType.default →
        initialMsg ctx
          = "I" ++ apos ++ "ve analyzed the " ++ "geometry" ++ "."
            ++ " It looks complex. Can you describe the faces or vertices to help me understand it better?")
    ∧ (strContains ctx.text imageSignal = false → ctx.type ≠ GeometryType.default →
        ctx.text.length > 10 →
        initialMsg ctx
          = "I" ++ apos ++ "ve analyzed the " ++ kindStr ctx.type ++ "."
            ++ " It looks like an interesting problem. What is the first variable we need to identify?")
    ∧ (strContains ctx.text imageSignal = false → ctx.type ≠ GeometryType.default →
        ctx.text.length ≤ 10 →
        initialMsg ctx
          = "I" ++ apos ++ "ve analyzed the " ++ kindStr ctx.type ++ "."
            ++ " I" ++ apos ++ "m ready to help you solve it. Where should we start?")
    ∧ (ctx.type = GeometryType.frustum → strContains (initialMsg ctx) "faces" = false) := by
  obtain ⟨txt, ty⟩ := ctx
  refine ⟨rfl, ?_, ?_, ?_, ?_, ?_⟩
  · intro h1 h2
    have hbe : (txt == "") = false := beq_eq_false_iff_ne.mpr h1
    simp only at h2
    simp [initialMsg, hbe, h2]
  · intro h2 htype
    simp only at h2 htype
    subst htype
    simp [initialMsg, h2]
  · intro h2 hnd hlen
    simp only at h2 hnd hlen
    have hbe : (txt == "") = false := by
      refine beq_eq_false_iff_ne.mpr ?_
      intro h0
      rw [h0] at hlen
      simp at hlen
    simp [initialMsg, h2, hnd, hbe, hlen]
  · intro h2 hnd hlen
    simp only at h2 hnd hlen
    have hlen' : ¬(txt.length > 10) := by omega
    simp [initialMsg, h2, hnd, hlen']
  · intro htype
    simp only at htype
    subst htype
    rcases Bool.eq_false_or_eq_true (!(txt == "") && strContains txt imageSignal) with h1 | h1 <;>
      rcases Bool.eq_false_or_eq_true (!(txt == "") && decide (txt.length > 10)) with h2 | h2 <;>
        simp only [initialMsg, h1, h2] <;> decide

/-- C9 witness: a frustum context with non-trivial problem text gets the
first-variable opener, and its opening message does not mention faces. -/
theorem init_opening_message_witness :
    initialMsg { text := "A bucket shaped like a frustum holds water.", type := GeometryType.frustum }
      = "I" ++ apos ++ "ve analyzed the "
          ++ kindStr GeometryType.frustum ++ "."
        ++ " It looks like an interesting problem. What is the first variable we need to identify?"
    ∧ strContains
        (initialMsg { text := "A bucket shaped like a frustum holds water.", type := GeometryType.frustum })
        "faces" = false := by
  have h := init_opening_message
    { text := "A bucket shaped like a frustum holds water.", type := GeometryType.frustum }
  exact ⟨h.2.2.2.1 (by decide) (by decide) (by decide), h.2.2.2.2.2 rfl⟩
